import Mathlib

/-!
# Verification of the auteur mixer node and stream-producer fan-out

Shallow embedding of `src/server/src/utils/stream_producer.rs` and
`src/server/src/mixer.rs`. GStreamer elements (appsink, appsrc, pads) are
identified by natural numbers; `HashMap`s are modelled as association lists
(one binding per key, in insertion order); `gst::ClockTime` is modelled as
`Option Nat` (nanoseconds, `CLOCK_TIME_NONE ↦ none`); `f64` values that the
code only ever sets to exact constants are modelled as `ℚ`.
-/

namespace Auteur

/-- `HashMap::get` on an association list. -/
def alookup {α : Type} (k : String) : List (String × α) → Option α
  | [] => none
  | (k', v) :: rest => if k' = k then some v else alookup k rest

/-- `HashMap::remove` on an association list (removes the binding for `k`). -/
def aremove {α : Type} (k : String) : List (String × α) → List (String × α)
  | [] => []
  | (k', v) :: rest => if k' = k then rest else (k', v) :: aremove k rest

/-- In-place update of the binding for `k`, identity when `k` is absent
(models `if let Some(v) = map.get_mut(k) { ... }`). -/
def aupdate {α : Type} (k : String) (f : α → α) : List (String × α) → List (String × α)
  | [] => []
  | (k', v) :: rest => if k' = k then (k', f v) :: rest else (k', v) :: aupdate k f rest

/-- `map.entry(k).or_insert_with(mk)` followed by applying `f` to the entry. -/
def aupsert {α : Type} (k : String) (mk : α) (f : α → α)
    (l : List (String × α)) : List (String × α) :=
  match alookup k l with
  | some _ => aupdate k f l
  | none => l ++ [(k, f mk)]

/-! ## StreamProducer / StreamConsumer (`stream_producer.rs`) -/

/-- One consumer binding: the wrapped `appsrc`, the id of the force-key-unit
pad probe installed on its src pad, and the two atomic flags. -/
structure StreamConsumer where
  appsrc : Nat
  fku_probe_id : Option Nat
  forwarded_latency : Bool
  first_buffer : Bool
deriving Repr, DecidableEq

/-- `StreamConsumer::new`: probe installed, `forwarded_latency = false`,
`first_buffer = true`. -/
def StreamConsumer.new (appsrc : Nat) (probe : Nat) : StreamConsumer :=
  { appsrc := appsrc, fku_probe_id := some probe,
    forwarded_latency := false, first_buffer := true }

/-- The mutex-guarded `StreamConsumers` record. -/
structure StreamConsumers where
  current_latency : Option Nat
  latency_updated : Bool
  consumers : List (String × StreamConsumer)
  discard : Bool
deriving Repr, DecidableEq

/-- A `StreamProducer` together with the world facts the claims need: the set
of pad probes currently installed on consumer src pads, and a fresh-id
counter for newly created probes. -/
structure StreamProducer where
  appsink : Nat
  cs : StreamConsumers
  installed_probes : List Nat
  next_probe_id : Nat
deriving Repr, DecidableEq

/-- `From<&AppSink> for StreamProducer`: empty consumer map, no latency,
`discard = true`. -/
def StreamProducer.init (appsink : Nat) : StreamProducer :=
  { appsink := appsink,
    cs := { current_latency := none, latency_updated := false,
            consumers := [], discard := true },
    installed_probes := [], next_probe_id := 0 }

/-- `StreamProducer::add_consumer`: if the id is already bound, log an error
and return with nothing changed; otherwise install the force-key-unit probe
on the new consumer's src pad and insert the consumer. -/
def StreamProducer.add_consumer (p : StreamProducer) (appsrc : Nat)
    (consumer_id : String) : StreamProducer :=
  if (alookup consumer_id p.cs.consumers).isSome then p
  else
    let probe := p.next_probe_id
    { p with
      cs := { p.cs with
        consumers := p.cs.consumers ++ [(consumer_id, StreamConsumer.new appsrc probe)] },
      installed_probes := p.installed_probes ++ [probe],
      next_probe_id := probe + 1 }

/-- `StreamProducer::remove_consumer`: remove the binding if present (the
removed `StreamConsumer` is dropped, and `Drop for StreamConsumer` takes the
probe id and removes the probe from the src pad); unknown id is a no-op. -/
def StreamProducer.remove_consumer (p : StreamProducer)
    (consumer_id : String) : StreamProducer :=
  match alookup consumer_id p.cs.consumers with
  | some c =>
    { p with
      cs := { p.cs with consumers := aremove consumer_id p.cs.consumers },
      installed_probes :=
        match c.fku_probe_id with
        | some probe => p.installed_probes.erase probe
        | none => p.installed_probes }
  | none => p

/-- `StreamProducer::forward`: stop discarding samples. -/
def StreamProducer.forward (p : StreamProducer) : StreamProducer :=
  { p with cs := { p.cs with discard := false } }

/-- `StreamProducer::get_consumer_ids`. -/
def StreamProducer.get_consumer_ids (p : StreamProducer) : List String :=
  p.cs.consumers.map (fun kv => kv.1)

/-- Observable actions of the appsink callbacks, in emission order. -/
inductive PEvent where
  /-- `appsrc.set_latency(latency, NONE)` on the named consumer. -/
  | setLatency (consumer_id : String) (latency : Nat)
  /-- upstream `ForceKeyUnit(all_headers = true)` sent to the appsink. -/
  | forceKeyUnit
  /-- `appsrc.push_sample` on the named consumer. -/
  | push (consumer_id : String)
  /-- `appsrc.end_of_stream()` on the named consumer. -/
  | endOfStream (consumer_id : String)
deriving Repr, DecidableEq

/-- Flow return of the `new_sample` callback. -/
inductive FlowResult where
  | ok
  | flushing
deriving Repr, DecidableEq

/-- One consumer's step inside the `new_sample` loop: the latency
compare-exchange / push, then the `first_buffer` compare-exchange and the
keyframe request guarded by `requested_keyframe`. Returns the updated
consumer, its emitted events, and the updated `requested_keyframe` flag. -/
def consumerTick (latency : Option Nat) (latency_updated requested : Bool)
    (id : String) (c : StreamConsumer) : StreamConsumer × List PEvent × Bool :=
  let latEv : List PEvent :=
    match latency with
    | some l => if !c.forwarded_latency || latency_updated then [.setLatency id l] else []
    | none => []
  let fl := if latency.isSome then true else c.forwarded_latency
  let fkuEv : List PEvent :=
    if c.first_buffer && !requested then [.forceKeyUnit] else []
  ({ c with forwarded_latency := fl, first_buffer := false },
   latEv ++ fkuEv,
   requested || c.first_buffer)

/-- The `new_sample` loop over `consumers.values()`, threading
`requested_keyframe`. -/
def tickConsumers (latency : Option Nat) (latency_updated : Bool) :
    List (String × StreamConsumer) → Bool →
    List (String × StreamConsumer) × List PEvent × Bool
  | [], requested => ([], [], requested)
  | (id, c) :: rest, requested =>
    let r := consumerTick latency latency_updated requested id c
    let rr := tickConsumers latency latency_updated rest r.2.2
    ((id, r.1) :: rr.1, r.2.1 ++ rr.2.1, rr.2.2)

/-- The `new_sample` callback. `pull_ok` is whether `appsink.pull_sample()`
succeeded. On pull failure return `Flushing`; while `discard` drop the sample
and return success; otherwise snapshot the latency, clear `latency_updated`,
run the consumer loop (latency pushes and at most one keyframe request), then
push the sample to every snapshotted consumer. -/
def StreamProducer.new_sample (p : StreamProducer) (pull_ok : Bool) :
    StreamProducer × List PEvent × FlowResult :=
  if !pull_ok then (p, [], .flushing)
  else if p.cs.discard then (p, [], .ok)
  else
    let r := tickConsumers p.cs.current_latency p.cs.latency_updated p.cs.consumers false
    let pushes := r.1.map (fun kv => PEvent.push kv.1)
    ({ p with cs := { p.cs with latency_updated := false, consumers := r.1 } },
     r.2.1 ++ pushes, .ok)

/-- The `eos` callback: signal end-of-stream on every current consumer,
regardless of `discard`. -/
def StreamProducer.eos (p : StreamProducer) : List PEvent :=
  p.cs.consumers.map (fun kv => PEvent.endOfStream kv.1)

/-! ## Settings (`mixer.rs`, `Mixer::create_settings`) -/

/-- `SettingSpec` from the `utils` module. Modelled from the spec:
the `utils` module is not under `src/`; §3 gives the variants
`I32{min,max,current}`, `F64{min,max,current}`, `Str{current}`,
`Bool{current}` (f64 modelled as `ℚ`). -/
inductive SettingSpec where
  | i32 (min max current : Int)
  | f64 (min max current : ℚ)
  | str (current : String)
  | bool (current : Bool)
deriving Repr, DecidableEq

/-- `Setting` from the `utils` module. Modelled from the spec (§3): a `name`,
a `spec` variant and a `controllable` flag. -/
structure Setting where
  name : String
  spec : SettingSpec
  controllable : Bool
deriving Repr, DecidableEq

/-- `Mixer::create_settings`, transcribed literally from `mixer.rs` lines
139-204, insertion order preserved (including the `current: 1920` of the
`"height"` entry and the `name: "height"` of the `"sample-rate"` entry as the
source writes them). -/
def create_settings : List (String × Setting) :=
  [ ("width",
     { name := "width",
       spec := SettingSpec.i32 1 2147483647 1920, controllable := true }),
    ("height",
     { name := "height",
       spec := SettingSpec.i32 1 2147483647 1920, controllable := true }),
    ("sample-rate",
     { name := "height",
       spec := SettingSpec.i32 1 2147483647 48000, controllable := false }),
    ("fallback-image",
     { name := "fallback-image",
       spec := SettingSpec.str "", controllable := false }),
    ("fallback-timeout",
     { name := "fallback-timeout",
       spec := SettingSpec.i32 0 2147483647 500, controllable := true }) ]

/-! ## Video mixing state and the base-plate logic
(`mixer.rs`, `Mixer::update_video_mixing_state`) -/

/-- The slice of `VideoMixingState` written by the base-plate part of the
samples-selected callback (lines 551-609), together with the compositor
`sink_0` pad's `alpha` property. The controller-synchronization part of the
same callback writes only `slot_controllers` / `mixer_controllers`, the
output caps and the pad's `width`/`height`; it never writes these fields, so
it is elided from this projection. `alpha` is only ever assigned the exact
constants `0.0` and `1.0`, modelled as `ℚ`. -/
structure VideoMixingState where
  base_plate_timeout : Option Nat
  showing_base_plate : Bool
  last_pts : Option Nat
  base_plate_alpha : ℚ
deriving Repr, DecidableEq

/-- `VideoMixingState` as `Mixer::new` and `start_pipeline` establish it:
`base_plate_timeout = CLOCK_TIME_NONE`, not showing, `last_pts = NONE`, and
`start_pipeline` sets the `sink_0` pad's `alpha` to `0.0`. -/
def VideoMixingState.init : VideoMixingState :=
  { base_plate_timeout := none, showing_base_plate := false,
    last_pts := none, base_plate_alpha := 0 }

/-- One video samples-selected tick (`Mixer::update_video_mixing_state`),
projected to the base-plate fields. `base_plate_only` is the result of the
pad loop (no sink pad other than `sink_0` had a next sample); `timeout` is
the snapshotted `fallback-timeout` in the same clock units as `pts`.
`pts - t` is `Nat` subtraction, faithful for the monotone `pts` the
aggregator delivers. -/
def update_video_mixing_state (pts : Nat) (base_plate_only : Bool)
    (timeout : Nat) (s : VideoMixingState) : VideoMixingState :=
  if base_plate_only then
    match s.base_plate_timeout with
    | none => { s with base_plate_timeout := some pts, last_pts := some pts }
    | some t =>
      if !s.showing_base_plate && decide (pts - t > timeout) then
        { s with base_plate_alpha := 1, showing_base_plate := true,
                 last_pts := some pts }
      else { s with last_pts := some pts }
  else
    if s.showing_base_plate then
      { s with base_plate_alpha := 0, showing_base_plate := false,
               base_plate_timeout := none, last_pts := some pts }
    else { s with base_plate_timeout := none, last_pts := some pts }

/-! ## Control points and controllers
(`mixer.rs` `add_control_point` / `remove_control_point` /
`add_slot_control_point`; the controller types live in the `utils` module,
which is not under `src/`, and are modelled from the spec) -/

/-- A JSON scalar (`serde_json::Value` restricted to the scalar forms §6
allows for control-point values). -/
inductive JValue where
  | int (n : Int)
  | float (q : ℚ)
  | str (s : String)
  | bool (b : Bool)
deriving Repr, DecidableEq

/-- The dynamic type tag of a `JValue` / of a pad property. -/
inductive JTy where
  | int
  | float
  | str
  | bool
deriving Repr, DecidableEq

/-- Type tag of a scalar. -/
def JValue.ty : JValue → JTy
  | .int _ => .int
  | .float _ => .float
  | .str _ => .str
  | .bool _ => .bool

/-- Interpolation mode of a control point (§3). -/
inductive Interp where
  | none
  | linear
deriving Repr, DecidableEq

/-- `ControlPoint` (§3 / §6): id, absolute time, typed value, interpolation
mode. -/
structure ControlPoint where
  id : String
  time : Nat
  value : JValue
  interpolation : Interp
deriving Repr, DecidableEq

/-- `SettingController` from the `utils` module. Modelled from the spec
(§3/§4.2): `controllee_id`, the target setting, and the queue of pending
control points in enqueue order. -/
structure SettingController where
  controllee_id : String
  setting : Setting
  points : List ControlPoint
deriving Repr, DecidableEq

/-- `SettingController::new` (spec §4.7: `AddControlPoint` upserts with the
mixer id as controllee). -/
def SettingController.new (controllee_id : String) (setting : Setting) :
    SettingController :=
  { controllee_id := controllee_id, setting := setting, points := [] }

/-- `push_control_point`. Modelled from the spec (§5: application order
within a controller equals enqueue order): append to the queue. -/
def SettingController.push_control_point (c : SettingController)
    (p : ControlPoint) : SettingController :=
  { c with points := c.points ++ [p] }

/-- `remove_control_point`. Modelled from the spec (§8: after `remove(id)`
the controller contains no point with that id). -/
def SettingController.remove_control_point (c : SettingController)
    (controller_id : String) : SettingController :=
  { c with points := c.points.filter (fun p => p.id ≠ controller_id) }

/-- `control_points`: the controller's queue, as reported by
`GetNodeInfo`. -/
def SettingController.control_points (c : SettingController) :
    List ControlPoint :=
  c.points

/-- Whether a scalar matches a setting spec and, for numeric specs, lies in
`[min, max]`. Modelled from the spec (§4.2: validation fails on type
disagreement or a numeric value outside the range). -/
def specAccepts : SettingSpec → JValue → Bool
  | .i32 lo hi _, .int n => decide (lo ≤ n) && decide (n ≤ hi)
  | .f64 lo hi _, .float q => decide (lo ≤ q) && decide (q ≤ hi)
  | .str _, .str _ => true
  | .bool _, .bool _ => true
  | _, _ => false

/-- `SettingController::validate_control_point`. Modelled from the spec
(§4.7: `AddControlPoint` errors on a non-controllable setting or a type
mismatch). -/
def SettingController.validate_control_point (s : Setting)
    (p : ControlPoint) : Bool :=
  s.controllable && specAccepts s.spec p.value

/-- `PropertyController` from the `utils` module. Modelled from the spec
(§3): `controllee_id`, the target pad, the property name and the queue of
pending control points. -/
structure PropertyController where
  controllee_id : String
  pad : Nat
  propname : String
  points : List ControlPoint
deriving Repr, DecidableEq

/-- `PropertyController::new(slot_id, pad, property)`. -/
def PropertyController.new (controllee_id : String) (pad : Nat)
    (propname : String) : PropertyController :=
  { controllee_id := controllee_id, pad := pad, propname := propname,
    points := [] }

/-- `push_control_point` on a property controller (spec §5: enqueue
order). -/
def PropertyController.push_control_point (c : PropertyController)
    (p : ControlPoint) : PropertyController :=
  { c with points := c.points ++ [p] }

/-- `remove_control_point` on a property controller (spec §8). -/
def PropertyController.remove_control_point (c : PropertyController)
    (controller_id : String) : PropertyController :=
  { c with points := c.points.filter (fun p => p.id ≠ controller_id) }

/-- `PropertyController::validate_control_point`. Modelled from the spec
(§4.2: the type is introspected from the mixer pad metadata and must match);
`pad_props` is the pad's property-name → type metadata. -/
def PropertyController.validate_control_point
    (pad_props : List (String × JTy)) (propname : String)
    (p : ControlPoint) : Bool :=
  match alookup propname pad_props with
  | some t => p.value.ty = t
  | none => false

/-- `Mixer::parse_slot_config_key` helper: split a string at the first
occurrence of `"::"` (Rust `splitn(2, "::")` producing two pieces), `none`
when the separator does not occur. -/
def splitSepOnce : List Char → Option (List Char × List Char)
  | [] => none
  | ':' :: ':' :: rest => some ([], rest)
  | c :: rest => (splitSepOnce rest).map (fun pr => (c :: pr.1, pr.2))

/-- String-level wrapper for `splitSepOnce`. -/
def splitOnce (s : String) : Option (String × String) :=
  (splitSepOnce s.data).map (fun pr => (String.mk pr.1, String.mk pr.2))

/-- `Mixer::parse_slot_config_key` (lines 297-312): the key must be
`video::<prop>` or `audio::<prop>`; `true` means video. -/
def parse_slot_config_key (property : String) :
    Except String (Bool × String) :=
  match splitOnce property with
  | some (mt, prop) =>
    if mt = "video" then .ok (true, prop)
    else if mt = "audio" then .ok (false, prop)
    else .error "Slot controller property media type must be one of audio or video"
  | none =>
    .error "Slot controller property name must be in form media-type::property-name"

/-! ## The mixer's control-point surface
(`mixer.rs` lines 926-973, 1057-1078, 1082-1093, 219-229) -/

/-- The pads a `ConsumerSlot` holds on the compositor and audiomixer,
together with each pad's property metadata (property name → type), which
`PropertyController` introspects during validation. -/
structure SlotPads where
  video_pad : Nat
  audio_pad : Nat
  video_pad_props : List (String × JTy)
  audio_pad_props : List (String × JTy)
deriving Repr, DecidableEq

/-- The slice of the `Mixer` actor state the control-point commands read and
write: the settings map, the consumer slots (pads only), and the controller
maps held in `VideoMixingState` / `AudioMixingState` (`slot_controllers` of
each, and `mixer_controllers` of the video state). -/
structure MixerCtl where
  id : String
  settings : List (String × Setting)
  consumer_slots : List (String × SlotPads)
  video_slot_controllers : List (String × PropertyController)
  audio_slot_controllers : List (String × PropertyController)
  mixer_controllers : List (String × SettingController)
deriving Repr, DecidableEq

/-- `Mixer::add_control_point` (lines 1057-1078): look the setting up,
validate the point against it, then upsert a `SettingController` keyed by
the setting name in `mixer_controllers` and push the point. -/
def Mixer.add_control_point (m : MixerCtl) (property : String)
    (point : ControlPoint) : Except String MixerCtl :=
  match alookup property m.settings with
  | some setting =>
    if SettingController.validate_control_point setting point then
      .ok { m with
            mixer_controllers :=
              aupsert property (SettingController.new m.id setting)
                (fun c => c.push_control_point point) m.mixer_controllers }
    else .error "control point validation failed"
  | none => .error ("mixer has no setting with name " ++ property)

/-- `Mixer::remove_control_point` (lines 1082-1093), transcribed as written:
it locks the video mixing state and looks `property` up in
`slot_controllers` — not in `mixer_controllers` — and removes the point
there when an entry exists. -/
def Mixer.remove_control_point (m : MixerCtl)
    (controller_id property : String) : MixerCtl :=
  { m with
    video_slot_controllers :=
      aupdate property (fun c => c.remove_control_point controller_id)
        m.video_slot_controllers }

/-- `Mixer::control_points` (lines 219-229), the `control_points` map
`GetNodeInfo` reports: one entry per `mixer_controllers` entry. -/
def Mixer.control_points (m : MixerCtl) :
    List (String × List ControlPoint) :=
  m.mixer_controllers.map (fun kv => (kv.1, kv.2.control_points))

/-- `Mixer::add_slot_control_point` (lines 926-973): look the slot up, parse
the `media::prop` key, validate the point against the pad, then upsert a
`PropertyController` in the video or audio `slot_controllers` map under the
key `slot_id.to_owned() + property` (plain concatenation, no separator, as
line 945 writes it) and push the point. -/
def Mixer.add_slot_control_point (m : MixerCtl) (slot_id property : String)
    (point : ControlPoint) : Except String MixerCtl :=
  match alookup slot_id m.consumer_slots with
  | some slot =>
    match parse_slot_config_key property with
    | .error e => .error e
    | .ok (is_video, prop) =>
      let pad := if is_video then slot.video_pad else slot.audio_pad
      let props := if is_video then slot.video_pad_props
                   else slot.audio_pad_props
      if PropertyController.validate_control_point props prop point then
        if is_video then
          .ok { m with
                video_slot_controllers :=
                  aupsert (slot_id ++ prop)
                    (PropertyController.new slot_id pad prop)
                    (fun c => c.push_control_point point)
                    m.video_slot_controllers }
        else
          .ok { m with
                audio_slot_controllers :=
                  aupsert (slot_id ++ prop)
                    (PropertyController.new slot_id pad prop)
                    (fun c => c.push_control_point point)
                    m.audio_slot_controllers }
      else .error "control point validation failed"
  | none => .error ("mixer has no slot with id " ++ slot_id)

/-! ## Connect (`mixer.rs`, `Mixer::connect`, lines 809-891) -/

/-- One requested mixer sink pad with its applied properties. -/
structure PadState where
  pad : Nat
  props : List (String × JValue)
deriving Repr, DecidableEq

/-- One `ConsumerSlot` as `connect` builds it (sub-graph wiring elided:
`connected` records whether the `Started` branch ran `connect_slot`). -/
structure SlotConn where
  video_producer : Nat
  audio_producer : Nat
  volume : ℚ
  video_pad : Nat
  audio_pad : Nat
  connected : Bool
deriving Repr, DecidableEq

/-- The slice of the `Mixer` actor state `connect` reads and writes: the
slot map and the sink pads requested from the compositor and the audiomixer
(with a fresh-pad counter standing for `request_pad_simple("sink_%u")`). -/
structure MixerConn where
  id : String
  consumer_slots : List (String × SlotConn)
  video_mixer_pads : List PadState
  audio_mixer_pads : List PadState
  next_pad_id : Nat
  started : Bool
deriving Repr, DecidableEq

/-- Modelled from the spec: the compositor / audiomixer sink-pad property
metadata comes from the media framework, which §1 treats as an external
collaborator; §4.2 and §8 name the pad properties `alpha`, `volume`,
`zorder`, `width`, `height`, `xpos`, `ypos` with their numeric types. -/
def mixerPadPropTypes : List (String × JTy) :=
  [ ("alpha", JTy.float), ("volume", JTy.float), ("zorder", JTy.int),
    ("width", JTy.int), ("height", JTy.int),
    ("xpos", JTy.int), ("ypos", JTy.int) ]

/-- `PropertyController::validate_value`. Modelled from the spec (§4.2: for
pad properties, the type is introspected from the pad metadata; validation
fails on a mismatch or an unknown property). -/
def PropertyController.validate_value (pad_props : List (String × JTy))
    (propname : String) (v : JValue) : Bool :=
  match alookup propname pad_props with
  | some t => v.ty = t
  | none => false

/-- `set_property` on one of the requested pads. -/
def setPadProp (pads : List PadState) (pad : Nat) (prop : String)
    (v : JValue) : List PadState :=
  pads.map (fun ps =>
    if ps.pad = pad then { ps with props := aupsert prop v (fun _ => v) ps.props }
    else ps)

/-- The `config` loop of `connect` (lines 823-835): for each key, parse it,
validate the value against the pad, and apply it; the first failure aborts
the loop, with every earlier application kept. -/
def applySlotConfig (vpad apad : Nat) :
    List (String × JValue) → MixerConn → MixerConn × Except String Unit
  | [], m => (m, .ok ())
  | (key, value) :: rest, m =>
    match parse_slot_config_key key with
    | .error e => (m, .error e)
    | .ok (is_video, prop) =>
      if PropertyController.validate_value mixerPadPropTypes prop value then
        let m' := if is_video
          then { m with video_mixer_pads := setPadProp m.video_mixer_pads vpad prop value }
          else { m with audio_mixer_pads := setPadProp m.audio_mixer_pads apad prop value }
        applySlotConfig vpad apad rest m'
      else (m, .error "value validation failed")

/-- `Mixer::connect` (lines 809-891). The duplicate-id check happens first;
then a sink pad is requested from the compositor and one from the
audiomixer; then the config is validated and applied; only then is the slot
built and inserted. `connect` returns `Result<(), Error>` while `self` (and
the mixer elements) are mutated in place, so the model returns the resulting
state alongside the result; the error paths after the pad requests keep the
requested pads (`connect_slot`, the pipeline wiring of the `Started` branch,
is elided and recorded in `connected`). -/
def Mixer.connect (m : MixerConn) (link_id : String)
    (video_producer audio_producer : Nat)
    (config : Option (List (String × JValue))) :
    MixerConn × Except String Unit :=
  if (alookup link_id m.consumer_slots).isSome then
    (m, .error ("mixer " ++ m.id ++ " already has link " ++ link_id))
  else
    let vpad := m.next_pad_id
    let apad := m.next_pad_id + 1
    let m1 : MixerConn := { m with
      video_mixer_pads := m.video_mixer_pads ++ [{ pad := vpad, props := [] }],
      audio_mixer_pads := m.audio_mixer_pads ++ [{ pad := apad, props := [] }],
      next_pad_id := m.next_pad_id + 2 }
    let step := match config with
      | some cfg => applySlotConfig vpad apad cfg m1
      | none => (m1, .ok ())
    match step with
    | (m2, .error e) => (m2, .error e)
    | (m2, .ok _) =>
      let slot : SlotConn :=
        { video_producer := video_producer, audio_producer := audio_producer,
          volume := 1, video_pad := vpad, audio_pad := apad,
          connected := m.started }
      ({ m2 with consumer_slots := m2.consumer_slots ++ [(link_id, slot)] },
       .ok ())

/-! ## Actor shutdown (`mixer.rs`, `Actor::stopped`, lines 118-135) -/

/-- One consumer slot as `stopped` sees it: the two upstream producers it is
attached to. -/
structure SlotStop where
  video_producer : Nat
  audio_producer : Nat
deriving Repr, DecidableEq

/-- The slice of the `Mixer` actor state `stopped` reads: the identities of
the mixer's two output producers and the slot map. -/
structure MixerStop where
  id : String
  video_producer : Nat
  audio_producer : Nat
  consumer_slots : List (String × SlotStop)
deriving Repr, DecidableEq

/-- The `StoppedMessage` sent to the node registry. -/
structure StoppedMessage where
  id : String
  video_producer : Option Nat
  audio_producer : Option Nat
deriving Repr, DecidableEq

/-- `remove_consumer` on the producer with the given identity in a world of
upstream producers. -/
def worldRemoveConsumer (world : List (Nat × StreamProducer)) (pid : Nat)
    (cid : String) : List (Nat × StreamProducer) :=
  world.map (fun kv => if kv.1 = pid then (kv.1, kv.2.remove_consumer cid) else kv)

/-- The `consumer_slots.drain()` loop of `stopped`: detach each slot's
bindings from its upstream video and audio producers. -/
def drainSlots (world : List (Nat × StreamProducer)) :
    List (String × SlotStop) → List (Nat × StreamProducer)
  | [] => world
  | (sid, slot) :: rest =>
    drainSlots
      (worldRemoveConsumer (worldRemoveConsumer world slot.video_producer sid)
        slot.audio_producer sid) rest

/-- `Actor::stopped` (lines 118-135): drain every slot, then send exactly
one `StoppedMessage` to the node registry. Line 132 passes
`self.video_producer` for the `audio_producer` field, transcribed as
written. -/
def Mixer.stopped (m : MixerStop) (world : List (Nat × StreamProducer)) :
    MixerStop × List (Nat × StreamProducer) × List StoppedMessage :=
  ({ m with consumer_slots := [] },
   drainSlots world m.consumer_slots,
   [{ id := m.id,
      video_producer := some m.video_producer,
      audio_producer := some m.video_producer }])

/-! ## Derived observations and invariant predicates -/

/-- Number of upstream `ForceKeyUnit` requests in a trace. -/
def countFKU : List PEvent → Nat
  | [] => 0
  | .forceKeyUnit :: rest => countFKU rest + 1
  | _ :: rest => countFKU rest

/-- Whether an event is a sample push. -/
def isPush : PEvent → Bool
  | .push _ => true
  | _ => false

/-- Whether some consumer still has its `first_buffer` flag set. -/
def hasFirstBuffer (l : List (String × StreamConsumer)) : Bool :=
  l.any (fun kv => kv.2.first_buffer)

/-- The compositor `sink_0` pad's alpha tracks `showing_base_plate`
(`0.0` hidden, `1.0` shown). -/
def GoodAlpha (s : VideoMixingState) : Prop :=
  s.base_plate_alpha = (if s.showing_base_plate then (1 : ℚ) else 0)

/-- While the base plate is showing, `base_plate_timeout` holds an instant
strictly before the last observed pts. -/
def PastTimeout (s : VideoMixingState) : Prop :=
  s.showing_base_plate = true →
    ∃ t lp, s.base_plate_timeout = some t ∧ s.last_pts = some lp ∧ t < lp

/-! ## Concrete fixtures for witnesses and counterexamples -/

/-- A fresh mixer control state over the default settings. -/
def mixerCtlInit : MixerCtl :=
  { id := "mixer-1", settings := create_settings, consumer_slots := [],
    video_slot_controllers := [], audio_slot_controllers := [],
    mixer_controllers := [] }

/-- A control point on the `width` setting. -/
def cpWidth : ControlPoint :=
  { id := "cp1", time := 100, value := JValue.int 1280,
    interpolation := Interp.linear }

/-- A mixer about to stop: distinct output producers 1 (video) and 2
(audio), one slot `"s"` attached to upstream producers 3 and 4. -/
def mixerStop0 : MixerStop :=
  { id := "m", video_producer := 1, audio_producer := 2,
    consumer_slots := [("s", { video_producer := 3, audio_producer := 4 })] }

/-- The upstream producers 3 and 4, each with the consumer binding `"s"`. -/
def stopWorld0 : List (Nat × StreamProducer) :=
  [ (3, (StreamProducer.init 30).add_consumer 31 "s"),
    (4, (StreamProducer.init 40).add_consumer 41 "s") ]

/-- A fresh mixer connection state. -/
def mixerConn0 : MixerConn :=
  { id := "m", consumer_slots := [], video_mixer_pads := [],
    audio_mixer_pads := [], next_pad_id := 0, started := false }

/-- Pad metadata offering two float properties named `"c"` and `"bc"`. -/
def padPropsC5 : List (String × JTy) :=
  [("c", JTy.float), ("bc", JTy.float)]

/-- The slot `"ab"`, holding compositor pad 1 and audiomixer pad 2. -/
def slotAB : SlotPads :=
  { video_pad := 1, audio_pad := 2, video_pad_props := padPropsC5,
    audio_pad_props := padPropsC5 }

/-- The slot `"a"`, holding compositor pad 3 and audiomixer pad 4. -/
def slotA : SlotPads :=
  { video_pad := 3, audio_pad := 4, video_pad_props := padPropsC5,
    audio_pad_props := padPropsC5 }

/-- A mixer control state with the two slots `"ab"` and `"a"`. -/
def mixerCtl5 : MixerCtl :=
  { id := "m", settings := create_settings,
    consumer_slots := [("ab", slotAB), ("a", slotA)],
    video_slot_controllers := [], audio_slot_controllers := [],
    mixer_controllers := [] }

/-- A float control point for the pair `("ab", "c")`. -/
def cpA : ControlPoint :=
  { id := "k1", time := 10, value := JValue.float (1/2),
    interpolation := Interp.linear }

/-- A float control point for the pair `("a", "bc")`. -/
def cpB : ControlPoint :=
  { id := "k2", time := 20, value := JValue.float (1/4),
    interpolation := Interp.linear }

/-- The state after adding `cpA` for the pair `("ab", "c")` on `mixerCtl5`. -/
def c5w : MixerCtl :=
  { mixerCtl5 with
    video_slot_controllers :=
      [("abc", { controllee_id := "ab", pad := 1, propname := "c",
                 points := [cpA] })] }

/-- The state after adding `cpA` for `("ab", "audio::c")` on `mixerCtl5`
(audiomixer pad 2 of slot `"ab"`). -/
def c5wA : MixerCtl :=
  { mixerCtl5 with
    audio_slot_controllers :=
      [("abc", { controllee_id := "ab", pad := 2, propname := "c",
                 points := [cpA] })] }

/-- A producer with two consumers that has been told to forward. -/
def p6 : StreamProducer :=
  (((StreamProducer.init 0).add_consumer 1 "a").add_consumer 2 "b").forward

/-- A producer with two consumers, still discarding. -/
def p9 : StreamProducer :=
  ((StreamProducer.init 0).add_consumer 5 "a").add_consumer 6 "b"

/-- A producer with one consumer, still discarding. -/
def p10 : StreamProducer :=
  (StreamProducer.init 0).add_consumer 1 "c"

/-- The video mixing state after one base-plate-only tick at pts 0. -/
def s7 : VideoMixingState :=
  update_video_mixing_state 0 true 500 VideoMixingState.init

/-! ## Association-list lemmas -/

theorem alookup_mem {α : Type} {q : String} {v : α} :
    ∀ {l : List (String × α)}, alookup q l = some v → (q, v) ∈ l := by
  intro l
  induction l with
  | nil => intro h; simp [alookup] at h
  | cons kv rest ih =>
    obtain ⟨k, w⟩ := kv
    intro h
    by_cases hk : k = q
    · subst hk
      simp [alookup] at h
      subst h
      exact List.mem_cons_self _ _
    · simp [alookup, hk] at h
      exact List.mem_cons_of_mem _ (ih h)

theorem alookup_eq_none_of_not_mem {α : Type} {q : String}
    {l : List (String × α)} (h : q ∉ l.map Prod.fst) : alookup q l = none := by
  induction l with
  | nil => rfl
  | cons kv rest ih =>
    obtain ⟨k, w⟩ := kv
    simp only [List.map_cons, List.mem_cons, not_or] at h
    have hk : ¬k = q := fun hc => h.1 hc.symm
    simp [alookup, hk, ih h.2]

theorem alookup_aupdate_self {α : Type} (k : String) (f : α → α)
    (l : List (String × α)) :
    alookup k (aupdate k f l) = (alookup k l).map f := by
  induction l with
  | nil => rfl
  | cons kv rest ih =>
    obtain ⟨k0, v⟩ := kv
    by_cases h : k0 = k <;> simp [alookup, aupdate, h, ih]

theorem alookup_aupdate_ne {α : Type} {q k : String} (h : q ≠ k) (f : α → α)
    (l : List (String × α)) :
    alookup q (aupdate k f l) = alookup q l := by
  induction l with
  | nil => rfl
  | cons kv rest ih =>
    obtain ⟨k0, v⟩ := kv
    by_cases h0 : k0 = k
    · have hk : ¬k = q := fun hc => h hc.symm
      simp [alookup, aupdate, h0, hk]
    · simp [alookup, aupdate, h0, ih]

theorem alookup_append {α : Type} (q : String) (l1 l2 : List (String × α)) :
    alookup q (l1 ++ l2) =
      match alookup q l1 with
      | some v => some v
      | none => alookup q l2 := by
  induction l1 with
  | nil => rfl
  | cons kv rest ih =>
    obtain ⟨k0, v⟩ := kv
    by_cases h : k0 = q <;> simp [alookup, h, ih]

theorem alookup_aupsert_self {α : Type} (k : String) (mk : α) (f : α → α)
    (l : List (String × α)) :
    alookup k (aupsert k mk f l) = some (f ((alookup k l).getD mk)) := by
  unfold aupsert
  cases h : alookup k l with
  | some v => simp [h, alookup_aupdate_self]
  | none => simp [h, alookup_append, alookup]

theorem alookup_aupsert_ne {α : Type} {q k : String} (h : q ≠ k) (mk : α)
    (f : α → α) (l : List (String × α)) :
    alookup q (aupsert k mk f l) = alookup q l := by
  unfold aupsert
  cases h0 : alookup k l with
  | some v => exact alookup_aupdate_ne h _ l
  | none =>
    rw [alookup_append]
    cases h1 : alookup q l with
    | some w => simp
    | none =>
      have hne : ¬k = q := fun hc => h hc.symm
      simp [alookup, hne]

theorem alookup_aremove_ne {α : Type} {q k : String} (h : q ≠ k)
    (l : List (String × α)) :
    alookup q (aremove k l) = alookup q l := by
  induction l with
  | nil => rfl
  | cons kv rest ih =>
    obtain ⟨k0, v⟩ := kv
    by_cases h0 : k0 = k
    · have hk : ¬k = q := fun hc => h hc.symm
      simp [alookup, aremove, h0, hk]
    · simp [alookup, aremove, h0, ih]

theorem alookup_aremove_self {α : Type} {k : String} {l : List (String × α)}
    (hnd : (l.map Prod.fst).Nodup) : alookup k (aremove k l) = none := by
  induction l with
  | nil => rfl
  | cons kv rest ih =>
    obtain ⟨k0, v⟩ := kv
    simp at hnd
    by_cases h0 : k0 = k
    · subst h0
      simp [aremove]
      exact alookup_eq_none_of_not_mem (by simpa using hnd.1)
    · simp [alookup, aremove, h0, ih hnd.2]

/-! ## C3: default settings -/

/-- C3: `create_settings` binds `"height"` to an I32 setting with min 1 and
max 2147483647, controllable, as the claim states — but with current value
1920, not the claimed 1080; and binds `"sample-rate"` to a non-controllable
I32 setting defaulting to 48000 — but with `name` field `"height"`, not the
claimed `"sample-rate"`. These are exactly the two typos §9 of the spec
flags as source bugs. -/
theorem C3_create_settings_divergence :
    alookup "height" create_settings =
      some { name := "height", spec := SettingSpec.i32 1 2147483647 1920,
             controllable := true } ∧
    SettingSpec.i32 1 2147483647 1920 ≠ SettingSpec.i32 1 2147483647 1080 ∧
    alookup "sample-rate" create_settings =
      some { name := "height", spec := SettingSpec.i32 1 2147483647 48000,
             controllable := false } ∧
    "height" ≠ "sample-rate" :=
  ⟨rfl, by decide, rfl, by decide⟩

/-! ## C1: mixer control-point round trip -/

/-- C1: `AddControlPoint("width", cpWidth)` is accepted and lands in
`mixer_controllers`, so `GetNodeInfo` reports it; the subsequent
`RemoveControlPoint("cp1", "width")` is a no-op on the whole state — it
searches `slot_controllers` instead of `mixer_controllers` — so the reported
`control_points` map still contains the removed point, refuting the claimed
round trip. -/
theorem C1_remove_control_point_does_not_remove :
    ∃ m1 : MixerCtl,
      Mixer.add_control_point mixerCtlInit "width" cpWidth = .ok m1 ∧
      Mixer.control_points m1 = [("width", [cpWidth])] ∧
      Mixer.remove_control_point m1 "cp1" "width" = m1 ∧
      Mixer.control_points (Mixer.remove_control_point m1 "cp1" "width") =
        [("width", [cpWidth])] := by
  refine ⟨_, rfl, rfl, rfl, rfl⟩

/-! ## C2: shutdown notification -/

/-- C2: `Actor::stopped` on a mixer whose output video producer is 1 and
output audio producer is 2 drains the single slot (both upstream producers
lose the binding `"s"`) and emits exactly one `StoppedMessage` — but the
message's `audio_producer` field carries the VIDEO producer 1 instead of
the audio producer 2, the double-producer slip of line 132. -/
theorem C2_stopped_double_video_producer :
    (Mixer.stopped mixerStop0 stopWorld0).2.2 =
      [{ id := "m", video_producer := some 1, audio_producer := some 1 }] ∧
    mixerStop0.audio_producer = 2 ∧
    (some 1 : Option Nat) ≠ some 2 ∧
    (Mixer.stopped mixerStop0 stopWorld0).1.consumer_slots = [] ∧
    (Mixer.stopped mixerStop0 stopWorld0).2.1.map
        (fun kv => (kv.1, kv.2.get_consumer_ids)) = [(3, []), (4, [])] :=
  ⟨rfl, rfl, by decide, rfl, rfl⟩

/-! ## C8: the discard flag -/

/-- C8: a producer is created with `discard = true`; `forward` sets it to
`false`; `add_consumer`, `remove_consumer` and the `new_sample` callback
never change it (so the `true → false` transition happens at most once per
producer lifetime); and while `discard` is true a successfully pulled sample
is pushed to no consumer and the callback returns success with the state
untouched. -/
theorem C8_discard_lifecycle (p : StreamProducer) (appsink appsrc : Nat)
    (cid : String) (pull_ok : Bool) :
    (StreamProducer.init appsink).cs.discard = true ∧
    (p.forward).cs.discard = false ∧
    (p.add_consumer appsrc cid).cs.discard = p.cs.discard ∧
    (p.remove_consumer cid).cs.discard = p.cs.discard ∧
    ((p.new_sample pull_ok).1).cs.discard = p.cs.discard ∧
    (p.cs.discard = true → p.new_sample true = (p, [], FlowResult.ok)) := by
  refine ⟨rfl, rfl, ?_, ?_, ?_, ?_⟩
  · unfold StreamProducer.add_consumer
    split <;> rfl
  · unfold StreamProducer.remove_consumer
    split <;> rfl
  · unfold StreamProducer.new_sample
    split
    · rfl
    · split <;> rfl
  · intro h
    unfold StreamProducer.new_sample
    simp [h]

/-- C8 witness at a concrete fresh producer. -/
theorem C8_discard_lifecycle_witness :
    (StreamProducer.init 0).cs.discard = true ∧
    (StreamProducer.init 0).new_sample true =
      (StreamProducer.init 0, [], FlowResult.ok) :=
  ⟨(C8_discard_lifecycle (StreamProducer.init 0) 0 1 "c" true).1,
   (C8_discard_lifecycle (StreamProducer.init 0) 0 1 "c" true).2.2.2.2.2 rfl⟩

/-! ## C10: EOS reaches discarding consumers -/

/-- C10: on sink EOS, end-of-stream is signalled to every currently attached
consumer even while `discard` is still true: the `eos` callback never
consults `discard`, and `forward` does not change the signalled set. -/
theorem C10_eos_reaches_all_while_discarding (p : StreamProducer)
    (cid : String) (_hd : p.cs.discard = true)
    (hc : (alookup cid p.cs.consumers).isSome = true) :
    PEvent.endOfStream cid ∈ p.eos ∧ p.eos = (p.forward).eos := by
  constructor
  · obtain ⟨c, hc'⟩ := Option.isSome_iff_exists.mp hc
    exact List.mem_map.mpr ⟨(cid, c), alookup_mem hc', rfl⟩
  · rfl

/-- C10 witness: the producer `p10` never forwarded, yet EOS is signalled to
its consumer `"c"`. -/
theorem C10_eos_witness :
    PEvent.endOfStream "c" ∈ p10.eos ∧ p10.eos = (p10.forward).eos :=
  C10_eos_reaches_all_while_discarding p10 "c" rfl (by decide)

/-! ## C9: attach / detach semantics -/

/-- C9: a second `add_consumer` with an already-bound id leaves the producer
(consumer set and probes) unchanged and surfaces no error; `remove_consumer`
with an unknown id is a no-op; `remove_consumer` with a known id removes
exactly that binding — the id no longer resolves, every other id resolves as
before — and the dropped consumer's upstream-event probe is uninstalled. -/
theorem C9_attach_detach (p : StreamProducer) (appsrc : Nat) (cid : String) :
    ((alookup cid p.cs.consumers).isSome = true →
      p.add_consumer appsrc cid = p) ∧
    (alookup cid p.cs.consumers = none → p.remove_consumer cid = p) ∧
    (∀ c, alookup cid p.cs.consumers = some c →
      ((p.cs.consumers.map Prod.fst).Nodup →
        alookup cid (p.remove_consumer cid).cs.consumers = none) ∧
      (∀ q, q ≠ cid →
        alookup q (p.remove_consumer cid).cs.consumers =
          alookup q p.cs.consumers) ∧
      (p.installed_probes.Nodup → ∀ probe, c.fku_probe_id = some probe →
        probe ∉ (p.remove_consumer cid).installed_probes)) := by
  refine ⟨?_, ?_, ?_⟩
  · intro h
    unfold StreamProducer.add_consumer
    simp [h]
  · intro h
    unfold StreamProducer.remove_consumer
    simp [h]
  · intro c hc
    refine ⟨?_, ?_, ?_⟩
    · intro hnd
      unfold StreamProducer.remove_consumer
      rw [hc]
      exact alookup_aremove_self hnd
    · intro q hq
      unfold StreamProducer.remove_consumer
      rw [hc]
      exact alookup_aremove_ne hq _
    · intro hnd probe hprobe
      unfold StreamProducer.remove_consumer
      simp only [hc, hprobe]
      exact hnd.not_mem_erase

/-- C9 witness on the two-consumer producer `p9` (probe ids 0 and 1). -/
theorem C9_attach_detach_witness :
    p9.add_consumer 7 "a" = p9 ∧
    p9.remove_consumer "zz" = p9 ∧
    alookup "a" (p9.remove_consumer "a").cs.consumers = none ∧
    alookup "b" (p9.remove_consumer "a").cs.consumers =
      alookup "b" p9.cs.consumers ∧
    (0 : Nat) ∉ (p9.remove_consumer "a").installed_probes := by
  have h3 := (C9_attach_detach p9 7 "a").2.2 (StreamConsumer.new 5 0) (by decide)
  exact ⟨(C9_attach_detach p9 7 "a").1 (by decide),
         (C9_attach_detach p9 7 "zz").2.1 (by decide),
         h3.1 (by decide),
         h3.2.1 "b" (by decide),
         h3.2.2 (by decide) 0 rfl⟩

/-! ## C6: keyframe requests on first delivery -/

theorem countFKU_append (a b : List PEvent) :
    countFKU (a ++ b) = countFKU a + countFKU b := by
  induction a with
  | nil => simp [countFKU]
  | cons e rest ih =>
    cases e with
    | setLatency cid l => simp [countFKU, ih]
    | forceKeyUnit =>
      simp [countFKU, ih]
      omega
    | push cid => simp [countFKU, ih]
    | endOfStream cid => simp [countFKU, ih]

theorem countFKU_map_push (l : List (String × StreamConsumer)) :
    countFKU (l.map (fun kv => PEvent.push kv.1)) = 0 := by
  induction l with
  | nil => rfl
  | cons kv rest ih => simp [countFKU, ih]

theorem consumerTick_fst (lat : Option Nat) (lu req : Bool) (id : String)
    (c : StreamConsumer) :
    (consumerTick lat lu req id c).1.first_buffer = false ∧
    (consumerTick lat lu req id c).2.2 = (req || c.first_buffer) :=
  ⟨rfl, rfl⟩

theorem consumerTick_countFKU (lat : Option Nat) (lu req : Bool)
    (id : String) (c : StreamConsumer) :
    countFKU (consumerTick lat lu req id c).2.1 =
      if c.first_buffer && !req then 1 else 0 := by
  unfold consumerTick
  rcases lat with _ | l <;>
    cases hfb : c.first_buffer <;>
    cases req <;>
    simp [countFKU, countFKU_append] <;>
    split <;>
    simp [countFKU]

theorem hasFirstBuffer_cons (id : String) (c : StreamConsumer)
    (rest : List (String × StreamConsumer)) :
    hasFirstBuffer ((id, c) :: rest) = (c.first_buffer || hasFirstBuffer rest) := by
  simp [hasFirstBuffer]

theorem tickConsumers_cons (lat : Option Nat) (lu : Bool) (id : String)
    (c : StreamConsumer) (rest : List (String × StreamConsumer)) (req : Bool) :
    tickConsumers lat lu ((id, c) :: rest) req =
      ((id, (consumerTick lat lu req id c).1) ::
        (tickConsumers lat lu rest (consumerTick lat lu req id c).2.2).1,
       (consumerTick lat lu req id c).2.1 ++
        (tickConsumers lat lu rest (consumerTick lat lu req id c).2.2).2.1,
       (tickConsumers lat lu rest (consumerTick lat lu req id c).2.2).2.2) := rfl

theorem consumerTick_noPush (lat : Option Nat) (lu req : Bool) (id : String)
    (c : StreamConsumer) :
    ∀ e ∈ (consumerTick lat lu req id c).2.1, isPush e = false := by
  intro e he
  unfold consumerTick at he
  rcases lat with _ | l <;> simp at he
  · obtain ⟨-, he⟩ := he
    subst he
    rfl
  · rcases he with ⟨-, he⟩ | ⟨-, he⟩ <;> (subst he; rfl)

theorem tickConsumers_spec (lat : Option Nat) (lu : Bool) :
    ∀ (l : List (String × StreamConsumer)) (req : Bool),
      ((tickConsumers lat lu l req).1.map Prod.fst = l.map Prod.fst) ∧
      (∀ kv ∈ (tickConsumers lat lu l req).1, kv.2.first_buffer = false) ∧
      ((tickConsumers lat lu l req).2.2 = (req || hasFirstBuffer l)) ∧
      (countFKU (tickConsumers lat lu l req).2.1 =
        if req then 0 else if hasFirstBuffer l then 1 else 0) ∧
      (∀ e ∈ (tickConsumers lat lu l req).2.1, isPush e = false) := by
  intro l
  induction l with
  | nil =>
    intro req
    refine ⟨rfl, by simp [tickConsumers], by simp [tickConsumers, hasFirstBuffer], ?_, ?_⟩
    · cases req <;> simp [tickConsumers, countFKU, hasFirstBuffer]
    · simp [tickConsumers]
  | cons kv rest ih =>
    intro req
    obtain ⟨id, c⟩ := kv
    have hhead := consumerTick_fst lat lu req id c
    have hcount := consumerTick_countFKU lat lu req id c
    have hnp := consumerTick_noPush lat lu req id c
    have htail := ih (req || c.first_buffer)
    rw [tickConsumers_cons, hhead.2]
    refine ⟨?_, ?_, ?_, ?_, ?_⟩
    · simp only [List.map_cons]
      rw [htail.1]
    · intro kv2 hkv2
      rcases List.mem_cons.mp hkv2 with h | h
      · subst h
        exact hhead.1
      · exact htail.2.1 kv2 h
    · rw [htail.2.2.1, hasFirstBuffer_cons]
      cases req <;> cases c.first_buffer <;> simp
    · rw [countFKU_append, hcount, htail.2.2.2.1, hasFirstBuffer_cons]
      cases req <;> cases c.first_buffer <;> simp
    · intro e he
      rcases List.mem_append.mp he with h | h
      · exact hnp e h
      · exact htail.2.2.2.2 e h

/-- C6: during one sample-delivery tick, at most one upstream
`ForceKeyUnit(all_headers = true)` is emitted toward the sink; a discarded
or failed tick emits nothing at all; on a live tick the request count is one
exactly when some consumer's `first_buffer` flag is still set (and each such
flag transitions to false on that same tick, the tick of that consumer's
first sample push); and the whole non-push prefix — including the keyframe
request — precedes the tick's sample pushes, which cover every consumer. -/
theorem C6_keyframe_per_tick (p : StreamProducer) (pull_ok : Bool) :
    (countFKU (p.new_sample pull_ok).2.1 ≤ 1) ∧
    (p.cs.discard = true → (p.new_sample pull_ok).2.1 = []) ∧
    (pull_ok = false → (p.new_sample pull_ok).2.1 = []) ∧
    (p.cs.discard = false → pull_ok = true →
      (countFKU (p.new_sample pull_ok).2.1 =
        if hasFirstBuffer p.cs.consumers then 1 else 0) ∧
      (∀ kv ∈ (p.new_sample pull_ok).1.cs.consumers,
        kv.2.first_buffer = false) ∧
      (∃ evs, (p.new_sample pull_ok).2.1 =
          evs ++ p.cs.consumers.map (fun kv => PEvent.push kv.1) ∧
          ∀ e ∈ evs, isPush e = false)) := by
  have hspec := tickConsumers_spec p.cs.current_latency p.cs.latency_updated
    p.cs.consumers false
  cases pull_ok with
  | false =>
    have hns : p.new_sample false = (p, [], FlowResult.flushing) := by
      unfold StreamProducer.new_sample
      simp
    rw [hns]
    exact ⟨by simp [countFKU], fun _ => rfl, fun _ => rfl,
           fun _ hc => absurd hc (by simp)⟩
  | true =>
    cases hd : p.cs.discard with
    | true =>
      have hns : p.new_sample true = (p, [], FlowResult.ok) := by
        unfold StreamProducer.new_sample
        simp [hd]
      rw [hns]
      exact ⟨by simp [countFKU], fun _ => rfl,
             fun hc => absurd hc (by simp),
             fun hc _ => absurd hc (by simp)⟩
    | false =>
      have htrace : (p.new_sample true).2.1 =
          (tickConsumers p.cs.current_latency p.cs.latency_updated
            p.cs.consumers false).2.1 ++
          (tickConsumers p.cs.current_latency p.cs.latency_updated
            p.cs.consumers false).1.map (fun kv => PEvent.push kv.1) := by
        unfold StreamProducer.new_sample
        simp [hd]
      have hcons : (p.new_sample true).1.cs.consumers =
          (tickConsumers p.cs.current_latency p.cs.latency_updated
            p.cs.consumers false).1 := by
        unfold StreamProducer.new_sample
        simp [hd]
      have hpushes : (tickConsumers p.cs.current_latency p.cs.latency_updated
          p.cs.consumers false).1.map (fun kv => PEvent.push kv.1) =
          p.cs.consumers.map (fun kv => PEvent.push kv.1) := by
        calc (tickConsumers p.cs.current_latency p.cs.latency_updated
            p.cs.consumers false).1.map (fun kv => PEvent.push kv.1)
            = ((tickConsumers p.cs.current_latency p.cs.latency_updated
                p.cs.consumers false).1.map Prod.fst).map PEvent.push := by
              rw [List.map_map]
              rfl
          _ = (p.cs.consumers.map Prod.fst).map PEvent.push := by rw [hspec.1]
          _ = p.cs.consumers.map (fun kv => PEvent.push kv.1) := by
              rw [List.map_map]
              rfl
      have hcount : countFKU (p.new_sample true).2.1 =
          if hasFirstBuffer p.cs.consumers then 1 else 0 := by
        rw [htrace, countFKU_append, hpushes, countFKU_map_push,
          hspec.2.2.2.1]
        simp
      refine ⟨?_, ?_, ?_, ?_⟩
      · rw [hcount]
        split <;> omega
      · intro hc
        exact absurd hc (by simp)
      · intro hc
        exact absurd hc (by simp)
      · intro _ _
        refine ⟨hcount, ?_, ?_⟩
        · intro kv hkv
          rw [hcons] at hkv
          exact hspec.2.1 kv hkv
        · refine ⟨(tickConsumers p.cs.current_latency p.cs.latency_updated
              p.cs.consumers false).2.1, ?_, hspec.2.2.2.2⟩
          rw [htrace, hpushes]

/-- C6 witness: one live tick of the two-consumer producer `p6` emits
exactly one keyframe request. -/
theorem C6_keyframe_witness :
    countFKU (p6.new_sample true).2.1 ≤ 1 ∧
    countFKU (p6.new_sample true).2.1 =
      (if hasFirstBuffer p6.cs.consumers then 1 else 0) :=
  ⟨(C6_keyframe_per_tick p6 true).1,
   ((C6_keyframe_per_tick p6 true).2.2.2 rfl rfl).1⟩

/-! ## C7: base-plate showing and hiding -/

theorem update_vms_fresh (pts tmo : Nat) (s : VideoMixingState)
    (h : s.base_plate_timeout = none) :
    update_video_mixing_state pts true tmo s =
      { s with base_plate_timeout := some pts, last_pts := some pts } := by
  simp [update_video_mixing_state, h]

theorem update_vms_trigger (pts tmo t : Nat) (s : VideoMixingState)
    (h : s.base_plate_timeout = some t) (hs : s.showing_base_plate = false)
    (hgt : pts - t > tmo) :
    update_video_mixing_state pts true tmo s =
      { s with base_plate_alpha := 1, showing_base_plate := true,
               last_pts := some pts } := by
  simp [update_video_mixing_state, h, hs, hgt]

theorem update_vms_wait (pts tmo t : Nat) (s : VideoMixingState)
    (h : s.base_plate_timeout = some t)
    (hcond : s.showing_base_plate = true ∨ ¬(pts - t > tmo)) :
    update_video_mixing_state pts true tmo s =
      { s with last_pts := some pts } := by
  rcases hcond with hs | hng
  · simp [update_video_mixing_state, h, hs]
  · simp [update_video_mixing_state, h, hng]

theorem update_vms_hide (pts tmo : Nat) (s : VideoMixingState)
    (hs : s.showing_base_plate = true) :
    update_video_mixing_state pts false tmo s =
      { s with base_plate_alpha := 0, showing_base_plate := false,
               base_plate_timeout := none, last_pts := some pts } := by
  simp [update_video_mixing_state, hs]

theorem update_vms_real (pts tmo : Nat) (s : VideoMixingState)
    (hs : s.showing_base_plate = false) :
    update_video_mixing_state pts false tmo s =
      { s with base_plate_timeout := none, last_pts := some pts } := by
  simp [update_video_mixing_state, hs]

theorem basePlateOnly_run (tmo : Nat) :
    ∀ (ps : List Nat) (s : VideoMixingState) (t0 : Nat),
      s.base_plate_timeout = some t0 →
      ((ps.foldl (fun st p => update_video_mixing_state p true tmo st) s).base_plate_timeout
          = some t0) ∧
      ((ps.foldl (fun st p => update_video_mixing_state p true tmo st) s).showing_base_plate
          = (s.showing_base_plate || ps.any (fun p => decide (p - t0 > tmo)))) ∧
      ((ps.foldl (fun st p => update_video_mixing_state p true tmo st) s).base_plate_alpha
          = if s.showing_base_plate then s.base_plate_alpha
            else if ps.any (fun p => decide (p - t0 > tmo)) then 1
            else s.base_plate_alpha) := by
  intro ps
  induction ps with
  | nil =>
    intro s t0 h
    refine ⟨h, by simp, ?_⟩
    cases s.showing_base_plate <;> simp
  | cons p rest ih =>
    intro s t0 h
    simp only [List.foldl_cons, List.any_cons]
    cases hs : s.showing_base_plate with
    | true =>
      rw [update_vms_wait p tmo t0 s h (Or.inl hs)]
      have hr := ih { s with last_pts := some p } t0 h
      refine ⟨hr.1, ?_, ?_⟩
      · rw [hr.2.1]
        simp [hs]
      · rw [hr.2.2]
        simp [hs]
    | false =>
      by_cases hgt : p - t0 > tmo
      · rw [update_vms_trigger p tmo t0 s h hs hgt]
        have hr := ih
          { s with base_plate_alpha := 1, showing_base_plate := true,
                   last_pts := some p } t0 h
        refine ⟨hr.1, ?_, ?_⟩
        · rw [hr.2.1]
          simp [hgt]
        · rw [hr.2.2]
          simp [hgt]
      · rw [update_vms_wait p tmo t0 s h (Or.inr hgt)]
        have hr := ih { s with last_pts := some p } t0 h
        refine ⟨hr.1, ?_, ?_⟩
        · rw [hr.2.1]
          simp [hs, hgt]
        · rw [hr.2.2]
          simp [hs, hgt]

/-- C7: (i) a base-plate-only tick with no recorded timeout start records
its pts; (ii) from a recorded start t0 with the plate hidden and alpha 0.0,
a run of base-plate-only ticks ends with the plate showing and alpha 1.0
exactly when some tick's pts exceeds t0 by strictly more than the fallback
timeout; (iii) on the first tick where any non-sink_0 pad has a next sample,
the plate is hidden, alpha is 0.0 and the timeout start is cleared; (iv)
every tick preserves the invariants "alpha tracks showing_base_plate" and
"showing_base_plate implies base_plate_timeout holds a fixed instant
strictly in the past", given monotone pts. -/
theorem C7_base_plate (tmo pts : Nat) (s : VideoMixingState) (ps : List Nat)
    (t0 : Nat) :
    (s.base_plate_timeout = none →
      (update_video_mixing_state pts true tmo s).base_plate_timeout = some pts) ∧
    (s.base_plate_timeout = some t0 → s.showing_base_plate = false →
      s.base_plate_alpha = 0 →
      ((ps.foldl (fun st p => update_video_mixing_state p true tmo st) s).showing_base_plate
          = ps.any (fun p => decide (p - t0 > tmo))) ∧
      ((ps.foldl (fun st p => update_video_mixing_state p true tmo st) s).base_plate_alpha
          = if ps.any (fun p => decide (p - t0 > tmo)) then 1 else 0)) ∧
    (GoodAlpha s →
      (update_video_mixing_state pts false tmo s).showing_base_plate = false ∧
      (update_video_mixing_state pts false tmo s).base_plate_alpha = 0 ∧
      (update_video_mixing_state pts false tmo s).base_plate_timeout = none) ∧
    (∀ bpo : Bool, GoodAlpha s → PastTimeout s →
      (∀ lp, s.last_pts = some lp → lp ≤ pts) →
      GoodAlpha (update_video_mixing_state pts bpo tmo s) ∧
      PastTimeout (update_video_mixing_state pts bpo tmo s) ∧
      (s.showing_base_plate = true →
        (update_video_mixing_state pts bpo tmo s).showing_base_plate = true →
        (update_video_mixing_state pts bpo tmo s).base_plate_timeout =
          s.base_plate_timeout)) := by
  refine ⟨?_, ?_, ?_, ?_⟩
  · intro h
    rw [update_vms_fresh pts tmo s h]
  · intro ht hs ha
    have hr := basePlateOnly_run tmo ps s t0 ht
    constructor
    · rw [hr.2.1, hs]
      simp
    · rw [hr.2.2, hs, ha]
      simp
  · intro hga
    have hga' : s.base_plate_alpha = (if s.showing_base_plate then (1 : ℚ) else 0) := hga
    cases hs : s.showing_base_plate with
    | true =>
      rw [update_vms_hide pts tmo s hs]
      exact ⟨rfl, rfl, rfl⟩
    | false =>
      rw [update_vms_real pts tmo s hs]
      refine ⟨hs, ?_, rfl⟩
      show s.base_plate_alpha = 0
      rw [hga', hs]
      simp
  · intro bpo hga hpt hmono
    have hga' : s.base_plate_alpha = (if s.showing_base_plate then (1 : ℚ) else 0) := hga
    cases bpo with
    | false =>
      cases hs : s.showing_base_plate with
      | true =>
        rw [update_vms_hide pts tmo s hs]
        refine ⟨?_, ?_, ?_⟩
        · show (0 : ℚ) = if false then 1 else 0
          simp
        · intro h
          have h' : false = true := h
          simp at h'
        · intro _ h
          have h' : false = true := h
          simp at h'
      | false =>
        rw [update_vms_real pts tmo s hs]
        refine ⟨hga, ?_, ?_⟩
        · intro h
          have h' : s.showing_base_plate = true := h
          rw [hs] at h'
          simp at h'
        · intro hshow _
          simp at hshow
    | true =>
      cases ht : s.base_plate_timeout with
      | none =>
        rw [update_vms_fresh pts tmo s ht]
        refine ⟨hga, ?_, ?_⟩
        · intro h
          have h' : s.showing_base_plate = true := h
          obtain ⟨t, lp, htt, -, -⟩ := hpt h'
          rw [ht] at htt
          simp at htt
        · intro hshow _
          obtain ⟨t, lp, htt, -, -⟩ := hpt hshow
          rw [ht] at htt
          simp at htt
      | some t =>
        cases hs : s.showing_base_plate with
        | true =>
          rw [update_vms_wait pts tmo t s ht (Or.inl hs)]
          refine ⟨hga, ?_, ?_⟩
          · intro h
            have h' : s.showing_base_plate = true := h
            obtain ⟨t', lp, htt, hlp, hlt⟩ := hpt h'
            exact ⟨t', pts, htt, rfl, lt_of_lt_of_le hlt (hmono lp hlp)⟩
          · intro _ _
            exact ht
        | false =>
          by_cases hgt : pts - t > tmo
          · rw [update_vms_trigger pts tmo t s ht hs hgt]
            refine ⟨?_, ?_, ?_⟩
            · show (1 : ℚ) = if true then 1 else 0
              simp
            · intro _
              exact ⟨t, pts, ht, rfl, by omega⟩
            · intro hshow _
              simp at hshow
          · rw [update_vms_wait pts tmo t s ht (Or.inr hgt)]
            refine ⟨hga, ?_, ?_⟩
            · intro h
              have h' : s.showing_base_plate = true := h
              rw [hs] at h'
              simp at h'
            · intro hshow _
              simp at hshow

/-- C7 witness: starting from `s7` (timeout start recorded at pts 0, plate
hidden), one further base-plate-only tick at pts 600 with a 500-unit
fallback timeout shows the plate with alpha 1.0. -/
theorem C7_base_plate_witness :
    (([600] : List Nat).foldl
        (fun st p => update_video_mixing_state p true 500 st) s7).showing_base_plate
        = ([600] : List Nat).any (fun p => decide (p - 0 > 500)) ∧
    (([600] : List Nat).foldl
        (fun st p => update_video_mixing_state p true 500 st) s7).base_plate_alpha
        = (if ([600] : List Nat).any (fun p => decide (p - 0 > 500)) then 1 else 0) :=
  (C7_base_plate 500 600 s7 [600] 0).2.1 rfl rfl rfl

/-! ## C4: Connect validation failures -/

theorem applySlotConfig_cons_error (vpad apad : Nat) (key : String)
    (value : JValue) (rest : List (String × JValue)) (m : MixerConn)
    (e : String) (hp : parse_slot_config_key key = .error e) :
    applySlotConfig vpad apad ((key, value) :: rest) m = (m, .error e) := by
  unfold applySlotConfig
  rw [hp]

theorem applySlotConfig_cons_invalid (vpad apad : Nat) (key : String)
    (value : JValue) (rest : List (String × JValue)) (m : MixerConn)
    (is_video : Bool) (prop : String)
    (hp : parse_slot_config_key key = .ok (is_video, prop))
    (hv : PropertyController.validate_value mixerPadPropTypes prop value = false) :
    applySlotConfig vpad apad ((key, value) :: rest) m =
      (m, .error "value validation failed") := by
  unfold applySlotConfig
  rw [hp]
  simp [hv]

theorem applySlotConfig_cons_video (vpad apad : Nat) (key : String)
    (value : JValue) (rest : List (String × JValue)) (m : MixerConn)
    (prop : String) (hp : parse_slot_config_key key = .ok (true, prop))
    (hv : PropertyController.validate_value mixerPadPropTypes prop value = true) :
    applySlotConfig vpad apad ((key, value) :: rest) m =
      applySlotConfig vpad apad rest
        { m with video_mixer_pads := setPadProp m.video_mixer_pads vpad prop value } := by
  conv_lhs => unfold applySlotConfig
  rw [hp]
  simp [hv]

theorem applySlotConfig_cons_audio (vpad apad : Nat) (key : String)
    (value : JValue) (rest : List (String × JValue)) (m : MixerConn)
    (prop : String) (hp : parse_slot_config_key key = .ok (false, prop))
    (hv : PropertyController.validate_value mixerPadPropTypes prop value = true) :
    applySlotConfig vpad apad ((key, value) :: rest) m =
      applySlotConfig vpad apad rest
        { m with audio_mixer_pads := setPadProp m.audio_mixer_pads apad prop value } := by
  conv_lhs => unfold applySlotConfig
  rw [hp]
  simp [hv]

theorem applySlotConfig_preserves (vpad apad : Nat) :
    ∀ (cfg : List (String × JValue)) (m : MixerConn),
      (applySlotConfig vpad apad cfg m).1.consumer_slots = m.consumer_slots ∧
      (applySlotConfig vpad apad cfg m).1.video_mixer_pads.length =
        m.video_mixer_pads.length ∧
      (applySlotConfig vpad apad cfg m).1.audio_mixer_pads.length =
        m.audio_mixer_pads.length := by
  intro cfg
  induction cfg with
  | nil => intro m; exact ⟨rfl, rfl, rfl⟩
  | cons kv rest ih =>
    intro m
    obtain ⟨key, value⟩ := kv
    cases hp : parse_slot_config_key key with
    | error e =>
      rw [applySlotConfig_cons_error vpad apad key value rest m e hp]
      exact ⟨rfl, rfl, rfl⟩
    | ok bp =>
      obtain ⟨is_video, prop⟩ := bp
      cases hv : PropertyController.validate_value mixerPadPropTypes prop value with
      | false =>
        rw [applySlotConfig_cons_invalid vpad apad key value rest m
          is_video prop hp hv]
        exact ⟨rfl, rfl, rfl⟩
      | true =>
        cases is_video with
        | true =>
          rw [applySlotConfig_cons_video vpad apad key value rest m prop hp hv]
          have h := ih
            { m with video_mixer_pads :=
                setPadProp m.video_mixer_pads vpad prop value }
          refine ⟨h.1, ?_, h.2.2⟩
          rw [h.2.1]
          simp [setPadProp]
        | false =>
          rw [applySlotConfig_cons_audio vpad apad key value rest m prop hp hv]
          have h := ih
            { m with audio_mixer_pads :=
                setPadProp m.audio_mixer_pads apad prop value }
          refine ⟨h.1, h.2.1, ?_⟩
          rw [h.2.2]
          simp [setPadProp]

theorem connect_dup (m : MixerConn) (link_id : String) (vp ap : Nat)
    (config : Option (List (String × JValue)))
    (hdup : (alookup link_id m.consumer_slots).isSome = true) :
    Mixer.connect m link_id vp ap config =
      (m, .error ("mixer " ++ m.id ++ " already has link " ++ link_id)) := by
  unfold Mixer.connect
  rw [hdup]
  simp

theorem connect_fresh_none (m : MixerConn) (link_id : String) (vp ap : Nat)
    (hdup : (alookup link_id m.consumer_slots).isSome = false) :
    (Mixer.connect m link_id vp ap none).2 = .ok () := by
  unfold Mixer.connect
  rw [hdup]
  simp

theorem connect_fresh_cfg (m : MixerConn) (link_id : String) (vp ap : Nat)
    (cfg : List (String × JValue))
    (hdup : (alookup link_id m.consumer_slots).isSome = false) :
    Mixer.connect m link_id vp ap (some cfg) =
      (match applySlotConfig m.next_pad_id (m.next_pad_id + 1) cfg
          { m with
            video_mixer_pads :=
              m.video_mixer_pads ++ [{ pad := m.next_pad_id, props := [] }],
            audio_mixer_pads :=
              m.audio_mixer_pads ++ [{ pad := m.next_pad_id + 1, props := [] }],
            next_pad_id := m.next_pad_id + 2 } with
       | (m2, .error e2) => (m2, .error e2)
       | (m2, .ok _) =>
         ({ m2 with
            consumer_slots := m2.consumer_slots ++
              [(link_id,
                { video_producer := vp, audio_producer := ap, volume := 1,
                  video_pad := m.next_pad_id, audio_pad := m.next_pad_id + 1,
                  connected := m.started })] }, .ok ())) := by
  unfold Mixer.connect
  rw [hdup]
  simp

theorem applySlotConfig_error_prefix (vpad apad : Nat) :
    ∀ (cfg : List (String × JValue)) (m : MixerConn) (e : String),
      (applySlotConfig vpad apad cfg m).2 = .error e →
      ∃ cfg₁ key value cfg₂,
        cfg = cfg₁ ++ (key, value) :: cfg₂ ∧
        (applySlotConfig vpad apad cfg₁ m).2 = .ok () ∧
        (applySlotConfig vpad apad cfg m).1 =
          (applySlotConfig vpad apad cfg₁ m).1 ∧
        (parse_slot_config_key key = .error e ∨
          ∃ is_video prop,
            parse_slot_config_key key = .ok (is_video, prop) ∧
            PropertyController.validate_value mixerPadPropTypes prop value =
              false) := by
  intro cfg
  induction cfg with
  | nil =>
    intro m e h
    exact Except.noConfusion h
  | cons kv rest ih =>
    intro m e h
    obtain ⟨key, value⟩ := kv
    cases hp : parse_slot_config_key key with
    | error e2 =>
      rw [applySlotConfig_cons_error vpad apad key value rest m e2 hp] at h
      have he : e2 = e := by injection h
      refine ⟨[], key, value, rest, rfl, rfl, ?_, Or.inl (by rw [hp, he])⟩
      rw [applySlotConfig_cons_error vpad apad key value rest m e2 hp]
      rfl
    | ok bp =>
      obtain ⟨is_video, prop⟩ := bp
      cases hv : PropertyController.validate_value mixerPadPropTypes prop value with
      | false =>
        refine ⟨[], key, value, rest, rfl, rfl, ?_,
          Or.inr ⟨is_video, prop, hp, hv⟩⟩
        rw [applySlotConfig_cons_invalid vpad apad key value rest m
          is_video prop hp hv]
        rfl
      | true =>
        cases is_video with
        | true =>
          rw [applySlotConfig_cons_video vpad apad key value rest m prop hp hv] at h
          obtain ⟨cfg₁, k2, v2, cfg₂, hcfg, hok1, hstate, hfail⟩ := ih _ e h
          refine ⟨(key, value) :: cfg₁, k2, v2, cfg₂, by simp [hcfg], ?_, ?_, hfail⟩
          · rw [applySlotConfig_cons_video vpad apad key value cfg₁ m prop hp hv]
            exact hok1
          · rw [applySlotConfig_cons_video vpad apad key value rest m prop hp hv,
              applySlotConfig_cons_video vpad apad key value cfg₁ m prop hp hv]
            exact hstate
        | false =>
          rw [applySlotConfig_cons_audio vpad apad key value rest m prop hp hv] at h
          obtain ⟨cfg₁, k2, v2, cfg₂, hcfg, hok1, hstate, hfail⟩ := ih _ e h
          refine ⟨(key, value) :: cfg₁, k2, v2, cfg₂, by simp [hcfg], ?_, ?_, hfail⟩
          · rw [applySlotConfig_cons_audio vpad apad key value cfg₁ m prop hp hv]
            exact hok1
          · rw [applySlotConfig_cons_audio vpad apad key value rest m prop hp hv,
              applySlotConfig_cons_audio vpad apad key value cfg₁ m prop hp hv]
            exact hstate

/-- C4 counterexample: `Connect("a", …)` with the two-entry config
`{"video::alpha" ↦ 0.5, "bad" ↦ 1}` — processed in that order; the model
fixes one `HashMap` iteration order as the list order — fails validation on
the malformed second key and the error is returned, but the state is NOT
unchanged: the compositor and audiomixer sink pads requested before config
validation remain requested, and the `alpha` value applied to the compositor
pad before the failing key remains applied. This refutes both the claim's
"no pad property is applied" and its "no compositor or audiomixer sink pad
remains requested". -/
theorem C4_connect_error_counterexample :
    (Mixer.connect mixerConn0 "a" 7 8
        (some [("video::alpha", JValue.float (1/2)), ("bad", JValue.int 1)])).2 =
      .error "Slot controller property name must be in form media-type::property-name" ∧
    (Mixer.connect mixerConn0 "a" 7 8
        (some [("video::alpha", JValue.float (1/2)), ("bad", JValue.int 1)])).1 ≠
      mixerConn0 ∧
    (Mixer.connect mixerConn0 "a" 7 8
        (some [("video::alpha", JValue.float (1/2)), ("bad", JValue.int 1)])).1.video_mixer_pads =
      [{ pad := 0, props := [("alpha", JValue.float (1/2))] }] ∧
    (Mixer.connect mixerConn0 "a" 7 8
        (some [("video::alpha", JValue.float (1/2)), ("bad", JValue.int 1)])).1.audio_mixer_pads =
      [{ pad := 1, props := [] }] :=
  ⟨rfl, by decide, rfl, rfl⟩

/-- C4 amended: when `connect` fails with a validation error, the error is
returned synchronously and no consumer slot is added; a duplicate-link-id
failure leaves the whole state unchanged; on the other validation failures
(malformed config key, invalid config value) the two sink pads requested
before validation remain requested — one more on the compositor and one more
on the audiomixer — and the resulting state is exactly the state reached by
applying the valid config prefix before the failing entry to the
freshly-requested pads, so config entries applied before the failing one
remain applied. -/
theorem C4_connect_error_state (m : MixerConn) (link_id : String)
    (vp ap : Nat) (config : Option (List (String × JValue))) (e : String)
    (h : (Mixer.connect m link_id vp ap config).2 = .error e) :
    (Mixer.connect m link_id vp ap config).1.consumer_slots =
      m.consumer_slots ∧
    ((alookup link_id m.consumer_slots).isSome = true →
      (Mixer.connect m link_id vp ap config).1 = m) ∧
    ((alookup link_id m.consumer_slots).isSome = false →
      (Mixer.connect m link_id vp ap config).1.video_mixer_pads.length =
        m.video_mixer_pads.length + 1 ∧
      (Mixer.connect m link_id vp ap config).1.audio_mixer_pads.length =
        m.audio_mixer_pads.length + 1) ∧
    ((alookup link_id m.consumer_slots).isSome = false →
      ∀ cfg, config = some cfg →
        ∃ cfg₁ key value cfg₂,
          cfg = cfg₁ ++ (key, value) :: cfg₂ ∧
          (applySlotConfig m.next_pad_id (m.next_pad_id + 1) cfg₁
            { m with
              video_mixer_pads :=
                m.video_mixer_pads ++ [{ pad := m.next_pad_id, props := [] }],
              audio_mixer_pads :=
                m.audio_mixer_pads ++ [{ pad := m.next_pad_id + 1, props := [] }],
              next_pad_id := m.next_pad_id + 2 }).2 = .ok () ∧
          (Mixer.connect m link_id vp ap config).1 =
            (applySlotConfig m.next_pad_id (m.next_pad_id + 1) cfg₁
              { m with
                video_mixer_pads :=
                  m.video_mixer_pads ++ [{ pad := m.next_pad_id, props := [] }],
                audio_mixer_pads :=
                  m.audio_mixer_pads ++ [{ pad := m.next_pad_id + 1, props := [] }],
                next_pad_id := m.next_pad_id + 2 }).1 ∧
          (parse_slot_config_key key = .error e ∨
            ∃ is_video prop,
              parse_slot_config_key key = .ok (is_video, prop) ∧
              PropertyController.validate_value mixerPadPropTypes prop value =
                false)) := by
  cases hdup : (alookup link_id m.consumer_slots).isSome with
  | true =>
    rw [connect_dup m link_id vp ap config hdup]
    refine ⟨rfl, fun _ => rfl, fun hcontra => ?_, fun hcontra => ?_⟩
    · simp at hcontra
    · simp at hcontra
  | false =>
    cases config with
    | none =>
      rw [connect_fresh_none m link_id vp ap hdup] at h
      simp at h
    | some cfg =>
      have hpre := applySlotConfig_preserves m.next_pad_id (m.next_pad_id + 1)
        cfg { m with
          video_mixer_pads :=
            m.video_mixer_pads ++ [{ pad := m.next_pad_id, props := [] }],
          audio_mixer_pads :=
            m.audio_mixer_pads ++ [{ pad := m.next_pad_id + 1, props := [] }],
          next_pad_id := m.next_pad_id + 2 }
      rw [connect_fresh_cfg m link_id vp ap cfg hdup] at h ⊢
      rcases hstep : applySlotConfig m.next_pad_id (m.next_pad_id + 1) cfg
          { m with
            video_mixer_pads :=
              m.video_mixer_pads ++ [{ pad := m.next_pad_id, props := [] }],
            audio_mixer_pads :=
              m.audio_mixer_pads ++ [{ pad := m.next_pad_id + 1, props := [] }],
            next_pad_id := m.next_pad_id + 2 } with ⟨m2, r2⟩
      rw [hstep] at hpre h
      cases r2 with
      | ok u => exact Except.noConfusion h
      | error e2 =>
        have he : e2 = e := by injection h
        subst he
        have happly : (applySlotConfig m.next_pad_id (m.next_pad_id + 1) cfg
            { m with
              video_mixer_pads :=
                m.video_mixer_pads ++ [{ pad := m.next_pad_id, props := [] }],
              audio_mixer_pads :=
                m.audio_mixer_pads ++ [{ pad := m.next_pad_id + 1, props := [] }],
              next_pad_id := m.next_pad_id + 2 }).2 = .error e2 := by
          rw [hstep]
        obtain ⟨cfg₁, key, value, cfg₂, hcfg, hok1, hstate, hfail⟩ :=
          applySlotConfig_error_prefix m.next_pad_id (m.next_pad_id + 1) cfg
            { m with
              video_mixer_pads :=
                m.video_mixer_pads ++ [{ pad := m.next_pad_id, props := [] }],
              audio_mixer_pads :=
                m.audio_mixer_pads ++ [{ pad := m.next_pad_id + 1, props := [] }],
              next_pad_id := m.next_pad_id + 2 } e2 happly
        rw [hstep] at hstate
        refine ⟨hpre.1, fun hcontra => ?_, fun _ => ⟨?_, ?_⟩,
          fun _ cfg' hcfg' => ?_⟩
        · simp at hcontra
        · rw [show (m2, Except.error (ε := String) e2).1 = m2 from rfl, hpre.2.1]
          simp
        · rw [show (m2, Except.error (ε := String) e2).1 = m2 from rfl, hpre.2.2]
          simp
        · injection hcfg' with hcc
          subst hcc
          exact ⟨cfg₁, key, value, cfg₂, hcfg, hok1, hstate, hfail⟩

/-- C4 witness for the amended theorem at the counterexample input: the
two-entry config whose first entry applies and whose second entry fails. -/
theorem C4_connect_error_state_witness :
    (Mixer.connect mixerConn0 "a" 7 8
        (some [("video::alpha", JValue.float (1/2)), ("bad", JValue.int 1)])).1.consumer_slots =
      mixerConn0.consumer_slots ∧
    ((alookup "a" mixerConn0.consumer_slots).isSome = true →
      (Mixer.connect mixerConn0 "a" 7 8
          (some [("video::alpha", JValue.float (1/2)), ("bad", JValue.int 1)])).1 =
        mixerConn0) ∧
    ((alookup "a" mixerConn0.consumer_slots).isSome = false →
      (Mixer.connect mixerConn0 "a" 7 8
          (some [("video::alpha", JValue.float (1/2)), ("bad", JValue.int 1)])).1.video_mixer_pads.length =
        mixerConn0.video_mixer_pads.length + 1 ∧
      (Mixer.connect mixerConn0 "a" 7 8
          (some [("video::alpha", JValue.float (1/2)), ("bad", JValue.int 1)])).1.audio_mixer_pads.length =
        mixerConn0.audio_mixer_pads.length + 1) ∧
    ((alookup "a" mixerConn0.consumer_slots).isSome = false →
      ∀ cfg, (some [("video::alpha", JValue.float (1/2)), ("bad", JValue.int 1)] :
          Option (List (String × JValue))) = some cfg →
        ∃ cfg₁ key value cfg₂,
          cfg = cfg₁ ++ (key, value) :: cfg₂ ∧
          (applySlotConfig mixerConn0.next_pad_id (mixerConn0.next_pad_id + 1) cfg₁
            { mixerConn0 with
              video_mixer_pads :=
                mixerConn0.video_mixer_pads ++
                  [{ pad := mixerConn0.next_pad_id, props := [] }],
              audio_mixer_pads :=
                mixerConn0.audio_mixer_pads ++
                  [{ pad := mixerConn0.next_pad_id + 1, props := [] }],
              next_pad_id := mixerConn0.next_pad_id + 2 }).2 = .ok () ∧
          (Mixer.connect mixerConn0 "a" 7 8
              (some [("video::alpha", JValue.float (1/2)), ("bad", JValue.int 1)])).1 =
            (applySlotConfig mixerConn0.next_pad_id (mixerConn0.next_pad_id + 1) cfg₁
              { mixerConn0 with
                video_mixer_pads :=
                  mixerConn0.video_mixer_pads ++
                    [{ pad := mixerConn0.next_pad_id, props := [] }],
                audio_mixer_pads :=
                  mixerConn0.audio_mixer_pads ++
                    [{ pad := mixerConn0.next_pad_id + 1, props := [] }],
                next_pad_id := mixerConn0.next_pad_id + 2 }).1 ∧
          (parse_slot_config_key key =
            .error "Slot controller property name must be in form media-type::property-name" ∨
            ∃ is_video prop,
              parse_slot_config_key key = .ok (is_video, prop) ∧
              PropertyController.validate_value mixerPadPropTypes prop value =
                false)) :=
  C4_connect_error_state mixerConn0 "a" 7 8
    (some [("video::alpha", JValue.float (1/2)), ("bad", JValue.int 1)])
    "Slot controller property name must be in form media-type::property-name" rfl

/-! ## C5: slot-controller keying -/

/-- C5 counterexample: with slots `"ab"` and `"a"` both present,
`AddSlotControlPoint("ab", "video::c", cpA)` and then
`AddSlotControlPoint("a", "video::bc", cpB)` are both accepted, yet the two
distinct pairs `("ab", "c")` and `("a", "bc")` end on ONE shared controller
(key `"abc" = "ab" ++ "c" = "a" ++ "bc"`): the point `cpB`, added for slot
`"a"` and property `"bc"`, is enqueued on the controller whose controllee is
slot `"ab"` and whose property is `"c"`, refuting the claim that a point
added for one pair is never enqueued on the controller of a different
pair. -/
theorem C5_shared_controller_counterexample :
    ∃ m1 m2 : MixerCtl,
      Mixer.add_slot_control_point mixerCtl5 "ab" "video::c" cpA = .ok m1 ∧
      Mixer.add_slot_control_point m1 "a" "video::bc" cpB = .ok m2 ∧
      m2.video_slot_controllers =
        [("abc", { controllee_id := "ab", pad := 1, propname := "c",
                   points := [cpA, cpB] })] ∧
      ("ab", "c") ≠ (("a" : String), ("bc" : String)) := by
  refine ⟨_, _, rfl, rfl, rfl, by decide⟩

/-- C5 amended: slot controllers are keyed by the plain concatenation
`slot_id ++ prop` (line 945); a successful `AddSlotControlPoint` pushes its
point onto exactly the controller stored under that key in the owning map —
the video map with the slot's compositor pad for a `video::` property, the
audio map with the slot's audiomixer pad for an `audio::` property —
creating the controller when absent, and leaves every other key, the other
controller map, the slot map and the mixer controllers untouched. Distinct
`(slot_id, property)` pairs therefore get distinct controllers exactly when
their concatenations differ; pairs with equal concatenations share one
controller. -/
theorem C5_slot_controller_key (m : MixerCtl) (slot_id property prop : String)
    (is_video : Bool) (point : ControlPoint) (m' : MixerCtl)
    (hparse : parse_slot_config_key property = .ok (is_video, prop))
    (hok : Mixer.add_slot_control_point m slot_id property point = .ok m') :
    m'.consumer_slots = m.consumer_slots ∧
    m'.mixer_controllers = m.mixer_controllers ∧
    (is_video = true →
      (∃ slot, alookup slot_id m.consumer_slots = some slot ∧
        alookup (slot_id ++ prop) m'.video_slot_controllers = some
          (match alookup (slot_id ++ prop) m.video_slot_controllers with
           | some c => c.push_control_point point
           | none =>
             (PropertyController.new slot_id slot.video_pad prop).push_control_point
               point)) ∧
      (∀ k, k ≠ slot_id ++ prop →
        alookup k m'.video_slot_controllers =
          alookup k m.video_slot_controllers) ∧
      m'.audio_slot_controllers = m.audio_slot_controllers) ∧
    (is_video = false →
      (∃ slot, alookup slot_id m.consumer_slots = some slot ∧
        alookup (slot_id ++ prop) m'.audio_slot_controllers = some
          (match alookup (slot_id ++ prop) m.audio_slot_controllers with
           | some c => c.push_control_point point
           | none =>
             (PropertyController.new slot_id slot.audio_pad prop).push_control_point
               point)) ∧
      (∀ k, k ≠ slot_id ++ prop →
        alookup k m'.audio_slot_controllers =
          alookup k m.audio_slot_controllers) ∧
      m'.video_slot_controllers = m.video_slot_controllers) := by
  unfold Mixer.add_slot_control_point at hok
  cases hs : alookup slot_id m.consumer_slots with
  | none =>
    rw [hs] at hok
    exact Except.noConfusion hok
  | some slot =>
    rw [hs, hparse] at hok
    cases is_video with
    | true =>
      have hok2 : (if PropertyController.validate_control_point
            slot.video_pad_props prop point = true then
          Except.ok { m with
            video_slot_controllers :=
              aupsert (slot_id ++ prop)
                (PropertyController.new slot_id slot.video_pad prop)
                (fun c => c.push_control_point point)
                m.video_slot_controllers }
        else (Except.error "control point validation failed" :
          Except String MixerCtl)) = Except.ok m' := hok
      cases hv : PropertyController.validate_control_point slot.video_pad_props
          prop point with
      | false =>
        rw [hv] at hok2
        exact Except.noConfusion hok2
      | true =>
        rw [hv] at hok2
        rw [if_pos rfl] at hok2
        injection hok2 with hA
        subst hA
        refine ⟨rfl, rfl, fun _ => ⟨⟨slot, rfl, ?_⟩, ?_, rfl⟩,
          fun hc => by simp at hc⟩
        · show alookup (slot_id ++ prop)
              (aupsert (slot_id ++ prop)
                (PropertyController.new slot_id slot.video_pad prop)
                (fun c => c.push_control_point point)
                m.video_slot_controllers) = _
          rw [alookup_aupsert_self]
          cases hl : alookup (slot_id ++ prop) m.video_slot_controllers <;>
            simp [hl]
        · intro k hk
          exact alookup_aupsert_ne hk _ _ _
    | false =>
      have hok2 : (if PropertyController.validate_control_point
            slot.audio_pad_props prop point = true then
          Except.ok { m with
            audio_slot_controllers :=
              aupsert (slot_id ++ prop)
                (PropertyController.new slot_id slot.audio_pad prop)
                (fun c => c.push_control_point point)
                m.audio_slot_controllers }
        else (Except.error "control point validation failed" :
          Except String MixerCtl)) = Except.ok m' := hok
      cases hv : PropertyController.validate_control_point slot.audio_pad_props
          prop point with
      | false =>
        rw [hv] at hok2
        exact Except.noConfusion hok2
      | true =>
        rw [hv] at hok2
        rw [if_pos rfl] at hok2
        injection hok2 with hA
        subst hA
        refine ⟨rfl, rfl, fun hc => by simp at hc,
          fun _ => ⟨⟨slot, rfl, ?_⟩, ?_, rfl⟩⟩
        · show alookup (slot_id ++ prop)
              (aupsert (slot_id ++ prop)
                (PropertyController.new slot_id slot.audio_pad prop)
                (fun c => c.push_control_point point)
                m.audio_slot_controllers) = _
          rw [alookup_aupsert_self]
          cases hl : alookup (slot_id ++ prop) m.audio_slot_controllers <;>
            simp [hl]
        · intro k hk
          exact alookup_aupsert_ne hk _ _ _

/-- C5 witness: the amended statement at the concrete slot `"ab"` and point
`cpA`, for both branches — property `"video::c"` landing in `c5w` on the
video map, and property `"audio::c"` landing in `c5wA` on the audio map. -/
theorem C5_slot_controller_key_witness :
    ((true : Bool) = true →
      (∃ slot, alookup "ab" mixerCtl5.consumer_slots = some slot ∧
        alookup ("ab" ++ "c") c5w.video_slot_controllers = some
          (match alookup ("ab" ++ "c") mixerCtl5.video_slot_controllers with
           | some c => c.push_control_point cpA
           | none =>
             (PropertyController.new "ab" slot.video_pad "c").push_control_point
               cpA)) ∧
      (∀ k, k ≠ "ab" ++ "c" →
        alookup k c5w.video_slot_controllers =
          alookup k mixerCtl5.video_slot_controllers) ∧
      c5w.audio_slot_controllers = mixerCtl5.audio_slot_controllers) ∧
    ((false : Bool) = false →
      (∃ slot, alookup "ab" mixerCtl5.consumer_slots = some slot ∧
        alookup ("ab" ++ "c") c5wA.audio_slot_controllers = some
          (match alookup ("ab" ++ "c") mixerCtl5.audio_slot_controllers with
           | some c => c.push_control_point cpA
           | none =>
             (PropertyController.new "ab" slot.audio_pad "c").push_control_point
               cpA)) ∧
      (∀ k, k ≠ "ab" ++ "c" →
        alookup k c5wA.audio_slot_controllers =
          alookup k mixerCtl5.audio_slot_controllers) ∧
      c5wA.video_slot_controllers = mixerCtl5.video_slot_controllers) :=
  ⟨(C5_slot_controller_key mixerCtl5 "ab" "video::c" "c" true cpA c5w
      rfl rfl).2.2.1,
   (C5_slot_controller_key mixerCtl5 "ab" "audio::c" "c" false cpA c5wA
      rfl rfl).2.2.2⟩

end Auteur
